import Mathlib

/-!
Verification of the multi-build room-synchronization extension.

The development shallowly embeds the relay-facing core of the extension
(source file: the WebSocket-based variant whose state is the module-level
variables activeSocket / keepAlive / connected):

* a JSON value model with a printer and parser for the wire envelope
  fragment used by the protocol (strings and objects), mirroring the
  ECMAScript JSON.stringify / JSON.parse built-ins on that fragment;
* a connection state machine for connectWebSocket / disconnectWebSocket
  and the socket open / close / keep-alive-tick event handlers, with the
  observable actions of each operation recorded as an explicit effect list;
* the message dispatcher (the socket message handler), handleSyncData and
  checkoutBranch, with the Git extension API and the CMake commands
  modelled as external collaborators.
-/

namespace MultiBuild

/-! ## JSON values and the wire codec -/

mutual

/-- JSON values in the fragment the wire protocol uses: strings and objects
(envelopes are objects whose fields are strings or nested objects). -/
inductive Json where
  | str (s : String)
  | obj (fields : Members)
deriving DecidableEq

/-- The ordered field list of a JSON object. -/
inductive Members where
  | nil
  | cons (key : String) (value : Json) (rest : Members)
deriving DecidableEq

end

/-- Opening brace character. -/
def lbrace : Char := Char.ofNat 123

/-- Closing brace character. -/
def rbrace : Char := Char.ofNat 125

/-- Lower-case hexadecimal digit for a value below 16, as produced by the
ECMAScript QuoteJSONString algorithm for control-character escapes. -/
def hexDigitChar (n : Nat) : Char :=
  if n < 10 then Char.ofNat (48 + n) else Char.ofNat (87 + n)

/-- Modelled from the spec: the codec serializes envelopes with the
ECMAScript built-in JSON.stringify, which is not part of the repository
source.  This is the per-character escaping of QuoteJSONString: quote and
backslash are backslash-escaped, the five named control characters get
their short escapes, the remaining control characters become a u-escape,
and every other character is emitted literally. -/
def escapeChar (c : Char) : List Char :=
  if c = '"' then ['\\', '"']
  else if c = '\\' then ['\\', '\\']
  else if c = Char.ofNat 8 then ['\\', 'b']
  else if c = '\t' then ['\\', 't']
  else if c = '\n' then ['\\', 'n']
  else if c = Char.ofNat 12 then ['\\', 'f']
  else if c = '\r' then ['\\', 'r']
  else if c.toNat < 32 then
    ['\\', 'u', '0', '0', hexDigitChar (c.toNat / 16), hexDigitChar (c.toNat % 16)]
  else [c]

/-- Escape every character of a string body. -/
def escapeString : List Char → List Char
  | [] => []
  | c :: cs => escapeChar c ++ escapeString cs

/-- A JSON string literal: quote, escaped body, quote. -/
def quoteString (s : String) : List Char :=
  '"' :: (escapeString s.data ++ ['"'])

mutual

/-- Modelled from the spec: JSON.stringify of a value of the protocol
fragment, producing the canonical whitespace-free wire form. -/
def printJson : Json → List Char
  | .str s => quoteString s
  | .obj fs => lbrace :: (printMembers fs ++ [rbrace])

/-- Object members, comma-separated, in field order. -/
def printMembers : Members → List Char
  | .nil => []
  | .cons k v .nil => quoteString k ++ ':' :: printJson v
  | .cons k v (.cons l w rest) =>
    quoteString k ++ ':' :: printJson v ++ ',' :: printMembers (.cons l w rest)

end

/-- Value of a hexadecimal digit character, if it is one. -/
def hexVal (c : Char) : Option Nat :=
  if 48 ≤ c.toNat ∧ c.toNat ≤ 57 then some (c.toNat - 48)
  else if 97 ≤ c.toNat ∧ c.toNat ≤ 102 then some (c.toNat - 87)
  else if 65 ≤ c.toNat ∧ c.toNat ≤ 70 then some (c.toNat - 55)
  else none

/-- Short escapes accepted after a backslash by JSON.parse. -/
def unescapeChar (e : Char) : Option Char :=
  if e = '"' then some '"'
  else if e = '\\' then some '\\'
  else if e = '/' then some '/'
  else if e = 'b' then some (Char.ofNat 8)
  else if e = 'f' then some (Char.ofNat 12)
  else if e = 'n' then some '\n'
  else if e = 'r' then some '\r'
  else if e = 't' then some '\t'
  else none

/-- A four-hex-digit unicode escape body, decoded to its scalar value. -/
def readUnicode : List Char → Option (Option Char × List Char)
  | h1 :: h2 :: h3 :: h4 :: rest =>
    match hexVal h1, hexVal h2, hexVal h3, hexVal h4 with
    | some a, some b, some c, some d =>
      some (some (Char.ofNat (4096 * a + 256 * b + 16 * c + d)), rest)
    | _, _, _, _ => none
  | _ => none

/-- The character following a backslash: a u-escape or a short escape. -/
def readEscape : List Char → Option (Option Char × List Char)
  | [] => none
  | e :: rest =>
    if e = 'u' then readUnicode rest
    else
      match unescapeChar e with
      | some c => some (some c, rest)
      | none => none

/-- One unit of a JSON string literal body: the closing quote (decoded
character none), an escape sequence, or a literal character. -/
def readChunk : List Char → Option (Option Char × List Char)
  | [] => none
  | c :: rest =>
    if c = '"' then some (none, rest)
    else if c = '\\' then readEscape rest
    else some (some c, rest)

/-- Modelled from the spec: the body of a JSON string literal as read by
JSON.parse, up to and including the closing quote.  Returns the decoded
characters and the remaining input.  Fuel bounds the number of units; each
unit consumes input, so any fuel beyond the input length is enough. -/
def parseStringBody : Nat → List Char → Option (List Char × List Char)
  | 0, _ => none
  | fuel + 1, cs =>
    match readChunk cs with
    | some (none, rest) => some ([], rest)
    | some (some c, rest) =>
      match parseStringBody fuel rest with
      | some (body, r) => some (c :: body, r)
      | none => none
    | none => none

mutual

/-- Modelled from the spec: JSON.parse restricted to the protocol fragment
(strings and objects, no interior whitespace — the form the codec emits).
Fuel bounds the recursion depth; each recursive call consumes input, so any
fuel beyond the input length is enough. -/
def parseJsonVal : Nat → List Char → Option (Json × List Char)
  | 0, _ => none
  | _ + 1, [] => none
  | fuel + 1, c :: rest =>
    if c = '"' then
      match parseStringBody (rest.length + 1) rest with
      | some (body, r) => some (.str (String.mk body), r)
      | none => none
    else if c = lbrace then
      match rest with
      | [] => none
      | r0 :: r1 =>
        if r0 = rbrace then some (.obj .nil, r1)
        else
          match parseMembers fuel (r0 :: r1) with
          | some (fs, r) => some (.obj fs, r)
          | none => none
    else none

/-- Object members as read by JSON.parse, consuming the closing brace. -/
def parseMembers : Nat → List Char → Option (Members × List Char)
  | 0, _ => none
  | _ + 1, [] => none
  | fuel + 1, c :: rest =>
    if c = '"' then
      match parseStringBody (rest.length + 1) rest with
      | some (key, r1) =>
        match r1 with
        | [] => none
        | c1 :: r2 =>
          if c1 = ':' then
            match parseJsonVal fuel r2 with
            | some (v, r3) =>
              match r3 with
              | [] => none
              | c2 :: r4 =>
                if c2 = ',' then
                  match parseMembers fuel r4 with
                  | some (fs, r5) => some (.cons (String.mk key) v fs, r5)
                  | none => none
                else if c2 = rbrace then some (.cons (String.mk key) v .nil, r4)
                else none
            | none => none
          else none
      | none => none
    else none

end

/-- A decoded wire envelope: a type tag and an optional data payload. -/
structure Envelope where
  type : String
  data : Option Json
deriving DecidableEq

/-- Property lookup on a parsed JSON object: with duplicate keys the last
occurrence wins, as in an ECMAScript object built by JSON.parse. -/
def lookupField (fs : Members) (k : String) : Option Json :=
  match fs with
  | .nil => none
  | .cons key v rest =>
    match lookupField rest k with
    | some w => some w
    | none => if key = k then some v else none

/-- Encoding of sendMessage: JSON.stringify of the envelope object, with
the data property omitted when it is undefined (hello and keep-alive). -/
def encodeMsg (type : String) (data : Option Json) : String :=
  String.mk (printJson (.obj
    (.cons "type" (Json.str type)
      (match data with
       | some d => .cons "data" d .nil
       | none => .nil))))

/-- Decoding at the message handler: JSON.parse of the whole input, which
must be an object whose type property is a string; the data property, when
present, is the payload. -/
def decodeMsg (s : String) : Option Envelope :=
  match parseJsonVal (s.data.length + 1) s.data with
  | some (.obj fs, []) =>
    match lookupField fs "type" with
    | some (.str t) => some { type := t, data := lookupField fs "data" }
    | _ => none
  | _ => none

/-! ## Errors and observable effects -/

/-- Error values thrown by the embedded operations.  invalidSyncMessage is
the Error thrown by the sync-payload validation (the InvalidPayload of the
spec); typeError is the TypeError raised by destructuring an undefined
payload; unknownMessageType is the Error thrown by the dispatcher's final
else branch. -/
inductive Err where
  | invalidSyncMessage
  | typeError
  | unknownMessageType (t : String)
  | noRoomId
  | authError
  | notConnected
deriving DecidableEq

/-- Observable actions of the embedded operations, in program order: console
logging, user-facing notifications, socket and timer management, and calls
into the Git and CMake collaborators. -/
inductive Eff where
  | log (s : String)
  | logError (s : String)
  | showError (s : String)
  | showInfo (s : String)
  | surfaceError (e : Err)
  | send (sid : Nat) (msgType : String)
  | createSocket (sid : Nat)
  | closeSocket (sid : Nat)
  | clearTimer
  | startTimer (intervalMillis : Nat)
  | scheduleReconnect (delayMillis : Nat)
  | gitFind (repoName : String)
  | gitFetch (remote branch : String)
  | gitCheckout (ref : String)
  | gitCreateBranch (name ref : String)
  | gitSetUpstream (name ref : String)
  | gitPull
  | cmakeConfigure
  | cmakeBuild
  | wait (ms : Nat)
deriving DecidableEq

/-- Version-control collaborator calls. -/
def isGitEff : Eff → Bool
  | .gitFind _ => true
  | .gitFetch _ _ => true
  | .gitCheckout _ => true
  | .gitCreateBranch _ _ => true
  | .gitSetUpstream _ _ => true
  | .gitPull => true
  | _ => false

/-- Build collaborator calls (the CMake configure and build commands). -/
def isBuildEff : Eff → Bool
  | .cmakeConfigure => true
  | .cmakeBuild => true
  | _ => false

/-- User-facing error surfacing (showErrorMessage, directly or via the
handleError boundary). -/
def isUserErrorEff : Eff → Bool
  | .showError _ => true
  | .surfaceError _ => true
  | _ => false

/-- Scheduling of a reconnect attempt (the setTimeout in the close handler). -/
def isReconnectEff : Eff → Bool
  | .scheduleReconnect _ => true
  | _ => false

/-! ## Connection state machine

The module-level mutable variables of the source — activeSocket, keepAlive
and connected — become an explicit state record.  Socket handles are
numbered; nextId supplies a fresh number per created socket.
keepAliveActive records whether the keep-alive interval timer is currently
running (set by setInterval in the open handler, cleared by clearInterval). -/

/-- The process-wide connection state. -/
structure ConnState where
  activeSocket : Option Nat
  connected : Bool
  keepAliveActive : Bool
  nextId : Nat
deriving DecidableEq

/-- State before any connection has been made. -/
def initialConnState : ConnState :=
  { activeSocket := none, connected := false, keepAliveActive := false, nextId := 0 }

/-- The server configuration read by getServerConfig: base URL (with the
built-in default already applied) and optional room id. -/
structure ServerConfig where
  baseUrl : String
  roomId : Option String
deriving DecidableEq

/-- Embedding of sendMessage: throws when no socket handle is installed,
otherwise writes one serialized envelope to the active socket. -/
def sendMessage (msgType : String) (s : ConnState) : Except Err Unit × List Eff :=
  match s.activeSocket with
  | none => (.error .notConnected, [])
  | some sid => (.ok (), [.send sid msgType])

/-- Embedding of disconnectWebSocket: a no-op (with a warning log) when no
socket handle exists; otherwise it clears the keep-alive timer, flips
connected to false, closes the socket and discards the handle. -/
def disconnectWebSocket (s : ConnState) : ConnState × List Eff :=
  match s.activeSocket with
  | none => (s, [.log "No WebSocket connection to close"])
  | some sid =>
    ({ s with keepAliveActive := false, connected := false, activeSocket := none },
      [.log "Closing WebSocket connection", .clearTimer, .closeSocket sid])

/-- Embedding of connectWebSocket: throws when the config has no room id;
retires any existing socket via disconnectWebSocket; resolves the auth
token (throwing on failure); then creates the new socket, installs its
handle and sets connected.  The token argument is the outcome of the
getAuthToken collaborator call. -/
def connectWebSocket (cfg : ServerConfig) (token : Except Unit String) (s : ConnState) :
    Except Err Unit × ConnState × List Eff :=
  match cfg.roomId with
  | none => (.error .noRoomId, s, [])
  | some _ =>
    let (s1, effs1) : ConnState × List Eff :=
      match s.activeSocket with
      | some _ =>
        let (s2, effs2) := disconnectWebSocket s
        (s2, .log "WebSocket already connected, disconnecting" :: effs2)
      | none => (s, [])
    match token with
    | .error _ => (.error .authError, s1, effs1 ++ [.log "Connecting WebSocket"])
    | .ok _ =>
      let sid := s1.nextId
      (.ok (),
        { s1 with activeSocket := some sid, nextId := sid + 1, connected := true },
        effs1 ++ [.log "Connecting WebSocket", .createSocket sid])

/-- Embedding of the socket open handler: sends the hello envelope and
starts the fixed-interval keep-alive timer. -/
def openEvent (s : ConnState) : Except Err Unit × ConnState × List Eff :=
  match sendMessage "hello" s with
  | (.ok _, effs) =>
    (.ok (), { s with keepAliveActive := true },
      .log "WebSocket connection opened" :: effs ++ [.startTimer 10000])
  | (.error e, effs) => (.error e, s, .log "WebSocket connection opened" :: effs)

/-- Embedding of the socket close handler: when connected is false the close
was expected and nothing is scheduled; otherwise exactly one reconnect
attempt is scheduled after a 1000 ms delay.  The handler mutates no state. -/
def closeEvent (s : ConnState) : ConnState × List Eff :=
  if s.connected then
    (s, [.logError "WebSocket closed unexpectedly", .scheduleReconnect 1000])
  else
    (s, [.log "WebSocket closed (expected)"])

/-- One firing of the keep-alive interval: nothing when the timer is not
running, otherwise a keep-alive envelope send attempt through sendMessage. -/
def keepAliveTick (s : ConnState) : Except Err Unit × List Eff :=
  if s.keepAliveActive then sendMessage "keep-alive" s
  else (.ok (), [])

/-! ## Git collaborator and the checkout algorithm -/

/-- Modelled from the spec: one repository exposed by the version-control
collaborator (the typings/git interface is not under src).  name is the
basename of the repository root path; localBranches are the names for
which getLocalBranch returns a branch rather than none; remoteBranches
are the (remote, branch) pairs for which fetch succeeds rather than
raising a FetchError. -/
structure GitRepo where
  name : String
  localBranches : List String
  remoteBranches : List (String × String)
deriving DecidableEq

/-- The repositories currently reported by the Git extension API. -/
structure GitWorld where
  repositories : List GitRepo
deriving DecidableEq

/-- Embedding of checkoutBranch: resolve the repository by basename (not
found is a normal false outcome), fetch the branch from the remote (a
fetch failure is shown to the user and yields false), then either check
out an existing local branch and pull, or check out the remote ref, create
the local branch from it and set its upstream.  Returns whether a checkout
happened, with the collaborator calls in program order. -/
def checkoutBranch (repoName remoteName branchName : String) (git : GitWorld) :
    Bool × List Eff :=
  if git.repositories.isEmpty then
    (false, [.gitFind repoName, .log "No Git repositories found"])
  else
    match git.repositories.find? (fun r => r.name = repoName) with
    | none => (false, [.gitFind repoName, .log "Skipping checkout, no repo with name"])
    | some repo =>
      let ref := remoteName ++ "/" ++ branchName
      if (remoteName, branchName) ∈ repo.remoteBranches then
        if branchName ∈ repo.localBranches then
          (true, [.gitFind repoName, .log "Checking out branch", .gitFetch remoteName branchName,
            .log "Branch already exists", .gitCheckout branchName, .gitPull,
            .log "Checked out branch"])
        else
          (true, [.gitFind repoName, .log "Checking out branch", .gitFetch remoteName branchName,
            .log "Branch does not exist, creating new branch", .gitCheckout ref,
            .gitCreateBranch branchName ref, .gitSetUpstream branchName ref,
            .log "Checked out branch"])
      else
        (false, [.gitFind repoName, .log "Checking out branch", .gitFetch remoteName branchName,
          .showError "Error fetching Git branch"])

/-! ## Sync payloads and the dispatcher -/

/-- The payload of a sync envelope as destructured by handleSyncData.  The
source annotates the three fields as strings; a missing field destructures
to undefined, embedded as none. -/
structure SyncMsgData where
  repo : Option String
  remote : Option String
  branch : Option String
deriving DecidableEq

/-- Falsiness of a destructured string field, as tested by the validation
(logical not in JavaScript): true for undefined and for the empty string. -/
def falsyStr : Option String → Bool
  | none => true
  | some s => s = ""

/-- Outcome of a completed sync reaction: skipped (no checkout happened,
build not attempted) or built. -/
inductive SyncOutcome where
  | skipped
  | built
deriving DecidableEq

/-- Embedding of handleSyncData.  Destructuring an absent payload throws a
TypeError before the validation runs; a present payload with a missing or
empty field fails the validation (the InvalidPayload error) before any
collaborator is called; otherwise the checkout runs, and the CMake
configure and build commands run only when the checkout reports true. -/
def handleSyncData (payload : Option SyncMsgData) (git : GitWorld) :
    Except Err SyncOutcome × List Eff :=
  match payload with
  | none => (.error .typeError, [])
  | some d =>
    if falsyStr d.repo || falsyStr d.remote || falsyStr d.branch then
      (.error .invalidSyncMessage, [.logError "Invalid sync message"])
    else
      let repoName := d.repo.getD ""
      let remoteName := d.remote.getD ""
      let branchName := d.branch.getD ""
      let (ok, effs) := checkoutBranch repoName remoteName branchName git
      if ok then
        (.ok .built, .log "Syncing repo" :: effs ++
          [.showInfo "Checked out branch", .log "CMake configure", .cmakeConfigure,
            .wait 1000, .log "CMake build", .cmakeBuild])
      else
        (.ok .skipped, .log "Syncing repo" :: effs ++
          [.log "No Git checkout happened, skipping build"])

/-- A received envelope as seen by the dispatcher after JSON.parse: its
type tag, its sync payload when it carries one (none embeds an undefined
data property), and the message property read by the error branch. -/
structure Msg where
  type : String
  syncData : Option SyncMsgData
  errMessage : Option String
deriving DecidableEq

/-- Embedding of the body of the socket message handler's try block: route
by type over the closed set hello / ack / error / sync, throwing
unknownMessageType for anything else.  Effects that happened before a
throw are kept alongside the error. -/
def dispatchMessage (m : Msg) (git : GitWorld) : Except Err Unit × List Eff :=
  if m.type = "hello" then (.ok (), [.log "Hello back message received"])
  else if m.type = "ack" then (.ok (), [.log "Ack message received"])
  else if m.type = "error" then (.ok (), [.logError "Error message received"])
  else if m.type = "sync" then
    match handleSyncData m.syncData git with
    | (.ok _, effs) => (.ok (), .log "Sync message received" :: effs)
    | (.error e, effs) => (.error e, .log "Sync message received" :: effs)
  else (.error (.unknownMessageType m.type), [])

/-- Embedding of the whole message handler: the catch around the dispatch
calls handleError, which surfaces the error to the user; the connection
state is never touched by message handling. -/
def onMessage (m : Msg) (git : GitWorld) (s : ConnState) : ConnState × List Eff :=
  match dispatchMessage m git with
  | (.ok _, effs) => (s, effs)
  | (.error e, effs) => (s, effs ++ [.surfaceError e])

/-! ## Trace semantics for the channel invariant -/

/-- External stimuli of the connection manager: the two commands
(reconnect-style connect and disconnect) and the three socket events. -/
inductive Cmd where
  | connect (cfg : ServerConfig) (token : Except Unit String)
  | disconnect
  | socketOpened
  | socketClosed
  | tick

/-- One step of the connection manager under a stimulus. -/
def step (s : ConnState) : Cmd → ConnState × List Eff
  | .connect cfg token =>
    let r := connectWebSocket cfg token s
    (r.2.1, r.2.2)
  | .disconnect => disconnectWebSocket s
  | .socketOpened =>
    let r := openEvent s
    (r.2.1, r.2.2)
  | .socketClosed => closeEvent s
  | .tick => (s, (keepAliveTick s).2)

/-- Sockets created and not yet closed, tracked over the emitted effects. -/
def liveAfter (live : List Nat) : Eff → List Nat
  | .createSocket sid => sid :: live
  | .closeSocket sid => live.erase sid
  | _ => live

/-- Fold liveAfter over an effect list. -/
def liveAfterAll (live : List Nat) (effs : List Eff) : List Nat :=
  effs.foldl liveAfter live

/-- Run a stimulus sequence, accumulating the live-socket ledger. -/
def runTrace (s : ConnState) (live : List Nat) : List Cmd → ConnState × List Nat
  | [] => (s, live)
  | c :: cs => runTrace (step s c).1 (liveAfterAll live (step s c).2) cs

/-- The single-channel invariant relating the state to the ledger: the
live sockets are exactly the installed handle. -/
def SocketInv (s : ConnState) (live : List Nat) : Prop :=
  match s.activeSocket with
  | some sid => live = [sid]
  | none => live = []

/-! ## Sizes, validity, and concrete witness inputs -/

/-- Concrete repository for the C1 witness: local branch main exists,
origin has both main and feature-x. -/
def c1Repo : GitRepo :=
  { name := "app", localBranches := ["main"],
    remoteBranches := [("origin", "main"), ("origin", "feature-x")] }

/-- Concrete world for the C1 witness. -/
def c1World : GitWorld := { repositories := [c1Repo] }


/-- Concrete world for the C6 witness, holding one open repository. -/
def c6World : GitWorld :=
  { repositories :=
      [{ name := "app", localBranches := ["main"], remoteBranches := [("origin", "main")] }] }


/-- Concrete configuration for the C4 run. -/
def c4Config : ServerConfig := { baseUrl := "wss://example", roomId := some "room-1" }

/-- State after a successful connect from the initial state: socket 0
installed, connected, heartbeat not yet started. -/
def c4Connected : ConnState := (connectWebSocket c4Config (.ok "token") initialConnState).2.1

/-- State after the open event: the keep-alive interval timer is running. -/
def c4Opened : ConnState := (openEvent c4Connected).2.1

/-- State after the transport closes unexpectedly (connected still true). -/
def c4AfterClose : ConnState := (closeEvent c4Opened).1


mutual

def sizeJson : Json -> Nat
  | .str _ => 1
  | .obj fs => 1 + sizeMembers fs

def sizeMembers : Members -> Nat
  | .nil => 0
  | .cons _ v rest => 1 + sizeJson v + sizeMembers rest

end


def nonEmptyStrField (fs : Members) (k : String) : Bool :=
  match lookupField fs k with
  | some (.str s) => s ≠ ""
  | _ => false


def isValidSyncRecord : Json -> Bool
  | .str _ => false
  | .obj fs =>
    nonEmptyStrField fs "repo" && nonEmptyStrField fs "remote" && nonEmptyStrField fs "branch"


/-! ## Claim theorems -/

/-- C9: calling disconnect when no channel is live is a no-op: it does not
raise, does not schedule a reconnect, and leaves all connection state
(socket handle, connected flag, heartbeat timer) unchanged; the only
effect is a log entry.  (disconnectWebSocket is total in the embedding
because the source function has no throw path.) -/
theorem C9_disconnect_idempotent (s : ConnState) (h : s.activeSocket = none) :
    disconnectWebSocket s = (s, [.log "No WebSocket connection to close"]) := by
  simp [disconnectWebSocket, h]

/-- C9 witness: the initial state has no live channel and disconnect leaves
it untouched with only a log. -/
theorem C9_witness :
    disconnectWebSocket initialConnState =
      (initialConnState, [.log "No WebSocket connection to close"]) :=
  C9_disconnect_idempotent initialConnState rfl

/-- C2: disconnect on an active channel flips connected to false, so the
resulting close event (which tests the connected flag) schedules no
reconnect attempt; whereas a close event arriving while connected is still
true schedules exactly one reconnect attempt, after a fixed 1000 ms
delay. -/
theorem C2_close_reconnect_discipline (s : ConnState) :
    (s.activeSocket.isSome = true →
      (disconnectWebSocket s).1.connected = false ∧
        ((closeEvent (disconnectWebSocket s).1).2.filter (fun e => isReconnectEff e)) = []) ∧
    (s.connected = true →
      ((closeEvent s).2.filter (fun e => isReconnectEff e)) = [.scheduleReconnect 1000]) := by
  constructor
  · intro h
    match hs : s.activeSocket with
    | none => rw [hs] at h; simp at h
    | some sid => simp [disconnectWebSocket, hs, closeEvent, isReconnectEff]
  · intro h
    simp [closeEvent, h, isReconnectEff]

/-- C2 witness: on a concrete active connected channel, disconnect then
close schedules nothing, while a close with connected still true schedules
exactly one 1000 ms reconnect. -/
theorem C2_witness :
    (disconnectWebSocket
        { activeSocket := some 0, connected := true, keepAliveActive := true,
          nextId := 1 }).1.connected = false ∧
      ((closeEvent (disconnectWebSocket
          { activeSocket := some 0, connected := true, keepAliveActive := true,
            nextId := 1 }).1).2.filter (fun e => isReconnectEff e)) = [] ∧
      ((closeEvent
          { activeSocket := some 0, connected := true, keepAliveActive := true,
            nextId := 1 }).2.filter (fun e => isReconnectEff e)) =
        [.scheduleReconnect 1000] := by
  have h := C2_close_reconnect_discipline
    { activeSocket := some 0, connected := true, keepAliveActive := true, nextId := 1 }
  exact ⟨(h.1 (by decide)).1, (h.1 (by decide)).2, h.2 (by decide)⟩

/-- C5: a sync payload with repo, remote or branch missing or empty fails
the validation with the InvalidPayload error, and no version-control
collaborator call occurs: the only effect is the validation's error log. -/
theorem C5_invalid_payload_rejected (d : SyncMsgData) (git : GitWorld)
    (h : (falsyStr d.repo || falsyStr d.remote || falsyStr d.branch) = true) :
    handleSyncData (some d) git =
      (.error .invalidSyncMessage, [.logError "Invalid sync message"]) ∧
    ∀ e ∈ (handleSyncData (some d) git).2, isGitEff e = false := by
  have h1 : handleSyncData (some d) git =
      (.error .invalidSyncMessage, [.logError "Invalid sync message"]) := by
    simp [handleSyncData, h]
  refine ⟨h1, ?_⟩
  rw [h1]
  intro e he
  simp at he
  subst he
  rfl

/-- C5 witness: the empty-repo payload from the spec's P8 example is
rejected with InvalidPayload and no Git call happens. -/
theorem C5_witness :
    handleSyncData (some { repo := some "", remote := some "origin", branch := some "main" })
        { repositories := [] } =
      (.error .invalidSyncMessage, [.logError "Invalid sync message"]) := by
  exact (C5_invalid_payload_rejected
    { repo := some "", remote := some "origin", branch := some "main" }
    { repositories := [] } (by decide)).1

/-- C7: dispatching a well-formed envelope whose type is outside the
recognized set raises unknownMessageType; the handler's catch surfaces it
as an error, the connection state is unchanged and no close happens. -/
theorem C7_unknown_type_surfaced (m : Msg) (git : GitWorld) (s : ConnState)
    (h1 : m.type ≠ "hello") (h2 : m.type ≠ "ack") (h3 : m.type ≠ "error")
    (h4 : m.type ≠ "sync") :
    dispatchMessage m git = (.error (.unknownMessageType m.type), []) ∧
    onMessage m git s = (s, [.surfaceError (.unknownMessageType m.type)]) := by
  have hd : dispatchMessage m git = (.error (.unknownMessageType m.type), []) := by
    simp [dispatchMessage, h1, h2, h3, h4]
  exact ⟨hd, by simp [onMessage, hd]⟩

/-- C7 witness: a bogus envelope type is surfaced as unknownMessageType and
the connection state stays exactly as it was. -/
theorem C7_witness :
    onMessage { type := "bogus", syncData := none, errMessage := none }
        { repositories := [] }
        { activeSocket := some 0, connected := true, keepAliveActive := true, nextId := 1 } =
      ({ activeSocket := some 0, connected := true, keepAliveActive := true, nextId := 1 },
        [.surfaceError (.unknownMessageType "bogus")]) := by
  exact (C7_unknown_type_surfaced
    { type := "bogus", syncData := none, errMessage := none }
    { repositories := [] }
    { activeSocket := some 0, connected := true, keepAliveActive := true, nextId := 1 }
    (by decide) (by decide) (by decide) (by decide)).2

/-- C10: a sync envelope with the data property entirely absent never
reaches the InvalidPayload validation: destructuring throws a TypeError,
which the message handler's catch surfaces as a generic error; the
connection state is unchanged and no version-control or build collaborator
call occurs. -/
theorem C10_absent_payload_generic_error (git : GitWorld) (s : ConnState)
    (em : Option String) :
    onMessage { type := "sync", syncData := none, errMessage := em } git s =
      (s, [.log "Sync message received", .surfaceError .typeError]) ∧
    ∀ e ∈ (onMessage { type := "sync", syncData := none, errMessage := em } git s).2,
      isGitEff e = false ∧ isBuildEff e = false := by
  have h1 : onMessage { type := "sync", syncData := none, errMessage := em } git s =
      (s, [.log "Sync message received", .surfaceError .typeError]) := by
    simp [onMessage, dispatchMessage, handleSyncData]
  refine ⟨h1, ?_⟩
  rw [h1]
  intro e he
  simp at he
  rcases he with he | he <;> subst he <;> exact ⟨rfl, rfl⟩

/-- C1: for a checkout whose repository resolves and whose fetch succeeds:
when a local branch with the requested name already exists, the branch is
checked out and then pulled, with no branch creation; when no local branch
with that name exists, the remote ref remote/branch is checked out, a
local branch with that name is created from it and its upstream is set to
the remote ref, with no pull. -/
theorem C1_checkoutBranch_branch_cases (rn rm bn : String) (git : GitWorld) (repo : GitRepo)
    (hfind : git.repositories.find? (fun r => r.name = rn) = some repo)
    (hfetch : (rm, bn) ∈ repo.remoteBranches) :
    (bn ∈ repo.localBranches →
      checkoutBranch rn rm bn git =
        (true, [.gitFind rn, .log "Checking out branch", .gitFetch rm bn,
          .log "Branch already exists", .gitCheckout bn, .gitPull,
          .log "Checked out branch"])) ∧
    (bn ∉ repo.localBranches →
      checkoutBranch rn rm bn git =
        (true, [.gitFind rn, .log "Checking out branch", .gitFetch rm bn,
          .log "Branch does not exist, creating new branch", .gitCheckout (rm ++ "/" ++ bn),
          .gitCreateBranch bn (rm ++ "/" ++ bn), .gitSetUpstream bn (rm ++ "/" ++ bn),
          .log "Checked out branch"])) := by
  have hne : git.repositories.isEmpty = false := by
    cases hr : git.repositories with
    | nil => rw [hr] at hfind; simp [List.find?] at hfind
    | cons a l => simp
  constructor <;> intro hloc <;> simp [checkoutBranch, hne, hfind, hfetch, hloc]

/-- C1 witness: in a repository with local branch main but no local
feature-x, syncing main checks out and pulls, while syncing feature-x
creates a tracking branch from origin/feature-x without pulling. -/
theorem C1_witness :
    checkoutBranch "app" "origin" "main" c1World =
      (true, [.gitFind "app", .log "Checking out branch", .gitFetch "origin" "main",
        .log "Branch already exists", .gitCheckout "main", .gitPull,
        .log "Checked out branch"]) ∧
    checkoutBranch "app" "origin" "feature-x" c1World =
      (true, [.gitFind "app", .log "Checking out branch", .gitFetch "origin" "feature-x",
        .log "Branch does not exist, creating new branch",
        .gitCheckout ("origin" ++ "/" ++ "feature-x"),
        .gitCreateBranch "feature-x" ("origin" ++ "/" ++ "feature-x"),
        .gitSetUpstream "feature-x" ("origin" ++ "/" ++ "feature-x"),
        .log "Checked out branch"]) := by
  refine ⟨?_, ?_⟩
  · exact (C1_checkoutBranch_branch_cases "app" "origin" "main" c1World c1Repo
      (by decide) (by decide)).1 (by decide)
  · exact (C1_checkoutBranch_branch_cases "app" "origin" "feature-x" c1World c1Repo
      (by decide) (by decide)).2 (by decide)

/-- C6: a valid sync payload whose repo matches no open local repository
yields the skipped outcome: the reaction succeeds with no user-facing
error and neither CMake configure nor build runs. -/
theorem C6_missing_repo_skipped (d : SyncMsgData) (git : GitWorld) (rp rm br : String)
    (hrp : d.repo = some rp) (hrm : d.remote = some rm) (hbr : d.branch = some br)
    (hrp0 : rp ≠ "") (hrm0 : rm ≠ "") (hbr0 : br ≠ "")
    (hfind : git.repositories.find? (fun r => r.name = rp) = none) :
    (handleSyncData (some d) git).1 = .ok .skipped ∧
    (∀ e ∈ (handleSyncData (some d) git).2, isUserErrorEff e = false) ∧
    (∀ e ∈ (handleSyncData (some d) git).2, isBuildEff e = false) := by
  have hfr : falsyStr d.repo = false := by simp [hrp, falsyStr, hrp0]
  have hfm : falsyStr d.remote = false := by simp [hrm, falsyStr, hrm0]
  have hfb : falsyStr d.branch = false := by simp [hbr, falsyStr, hbr0]
  cases hr : git.repositories with
  | nil =>
    have hco : checkoutBranch rp rm br git = (false,
        [.gitFind rp, .log "No Git repositories found"]) := by
      simp [checkoutBranch, hr]
    have h1 : handleSyncData (some d) git = (.ok .skipped,
        [.log "Syncing repo", .gitFind rp, .log "No Git repositories found",
          .log "No Git checkout happened, skipping build"]) := by
      simp [handleSyncData, falsyStr, hrp, hrm, hbr, hrp0, hrm0, hbr0, hco]
    rw [h1]
    refine ⟨rfl, ?_, ?_⟩ <;>
      (intro e he; simp at he; rcases he with he | he | he | he <;> subst he <;> rfl)
  | cons a l =>
    have hne : git.repositories.isEmpty = false := by rw [hr]; simp
    have hco : checkoutBranch rp rm br git = (false,
        [.gitFind rp, .log "Skipping checkout, no repo with name"]) := by
      simp [checkoutBranch, hne, hfind]
    have h1 : handleSyncData (some d) git = (.ok .skipped,
        [.log "Syncing repo", .gitFind rp, .log "Skipping checkout, no repo with name",
          .log "No Git checkout happened, skipping build"]) := by
      simp [handleSyncData, falsyStr, hrp, hrm, hbr, hrp0, hrm0, hbr0, hco]
    rw [h1]
    refine ⟨rfl, ?_, ?_⟩ <;>
      (intro e he; simp at he; rcases he with he | he | he | he <;> subst he <;> rfl)

/-- C6 witness: a sync for a repository that is not open is skipped on a
world holding another repository, with no user error and no build. -/
theorem C6_witness :
    (handleSyncData
      (some { repo := some "nonexistent", remote := some "origin", branch := some "main" })
      c6World).1 = .ok .skipped := by
  exact (C6_missing_repo_skipped
    { repo := some "nonexistent", remote := some "origin", branch := some "main" }
    c6World "nonexistent" "origin" "main" rfl rfl rfl
    (by decide) (by decide) (by decide) (by decide)).1

/-- C4 counterexample: after an unexpected transport close of an active
channel with a running heartbeat, the close handler emits no clearTimer,
the keep-alive timer is still active, and the next timer firing attempts a
keep-alive send on the closed channel — refuting, at this input, the claim
that any close of the channel leaves the keep-alive timer inactive. -/
theorem C4_counterexample :
    c4Opened.connected = true ∧
    c4Opened.keepAliveActive = true ∧
    ((closeEvent c4Opened).2.filter (fun e => e = Eff.clearTimer)) = [] ∧
    c4AfterClose.keepAliveActive = true ∧
    (keepAliveTick c4AfterClose).2 = [Eff.send 0 "keep-alive"] := by
  decide

/-- C4 amended: an explicit disconnect of an active channel cancels the
heartbeat — afterwards the timer is inactive and a timer firing attempts no
send.  An unexpected transport close leaves the timer state untouched, so
keep-alive sends may still be attempted until the old channel is retired
by a subsequent connect call (such as the scheduled reconnect), which
clears the timer whatever the auth token outcome. -/
theorem C4_heartbeat_cancellation_amended (s : ConnState) (cfg : ServerConfig)
    (token : Except Unit String) :
    (s.activeSocket.isSome = true →
      (disconnectWebSocket s).1.keepAliveActive = false ∧
        (keepAliveTick (disconnectWebSocket s).1).2 = []) ∧
    (closeEvent s).1 = s ∧
    (s.activeSocket.isSome = true → cfg.roomId.isSome = true →
      (connectWebSocket cfg token s).2.1.keepAliveActive = false) := by
  refine ⟨?_, ?_, ?_⟩
  · intro h
    match hs : s.activeSocket with
    | none => rw [hs] at h; simp at h
    | some sid => simp [disconnectWebSocket, hs, keepAliveTick]
  · unfold closeEvent
    split <;> rfl
  · intro h hr
    match hrid : cfg.roomId with
    | none => rw [hrid] at hr; simp at hr
    | some rid =>
      match hs : s.activeSocket with
      | none => rw [hs] at h; simp at h
      | some sid =>
        cases token <;> simp [connectWebSocket, hrid, hs, disconnectWebSocket]

/-- C4 witness for the amended claim: on a concrete active channel with a
running heartbeat, disconnect cancels the timer and silences the tick, the
close handler changes nothing, and a reconnect-style connect clears the
timer. -/
theorem C4_witness :
    (disconnectWebSocket
        { activeSocket := some 0, connected := true, keepAliveActive := true,
          nextId := 1 }).1.keepAliveActive = false ∧
    (keepAliveTick (disconnectWebSocket
        { activeSocket := some 0, connected := true, keepAliveActive := true,
          nextId := 1 }).1).2 = [] ∧
    (connectWebSocket c4Config (.ok "token")
        { activeSocket := some 0, connected := true, keepAliveActive := true,
          nextId := 1 }).2.1.keepAliveActive = false := by
  have h := C4_heartbeat_cancellation_amended
    { activeSocket := some 0, connected := true, keepAliveActive := true, nextId := 1 }
    c4Config (.ok "token")
  exact ⟨(h.1 (by decide)).1, (h.1 (by decide)).2, h.2.2 (by decide) (by decide)⟩

/-- Every stimulus preserves the single-channel invariant: the live-socket
ledger always equals the installed handle. -/
theorem step_socketInv (s : ConnState) (live : List Nat) (c : Cmd)
    (h : SocketInv s live) :
    SocketInv (step s c).1 (liveAfterAll live (step s c).2) := by
  cases c with
  | connect cfg token =>
    match hrid : cfg.roomId with
    | none => simpa [step, connectWebSocket, hrid, liveAfterAll] using h
    | some rid =>
      match hs : s.activeSocket with
      | some sid =>
        have hl : live = [sid] := by simpa only [SocketInv, hs] using h
        cases token with
        | error e =>
          simp [step, connectWebSocket, hrid, hs, disconnectWebSocket, liveAfterAll,
            liveAfter, hl, SocketInv, List.erase_cons_head]
        | ok tok =>
          simp [step, connectWebSocket, hrid, hs, disconnectWebSocket, liveAfterAll,
            liveAfter, hl, SocketInv, List.erase_cons_head]
      | none =>
        have hl : live = [] := by simpa only [SocketInv, hs] using h
        cases token with
        | error e =>
          simp [step, connectWebSocket, hrid, hs, liveAfterAll, liveAfter, hl, SocketInv]
        | ok tok =>
          simp [step, connectWebSocket, hrid, hs, liveAfterAll, liveAfter, hl, SocketInv]
  | disconnect =>
    match hs : s.activeSocket with
    | some sid =>
      have hl : live = [sid] := by simpa only [SocketInv, hs] using h
      simp [step, disconnectWebSocket, hs, liveAfterAll, liveAfter, hl, SocketInv,
        List.erase_cons_head]
    | none =>
      have hl : live = [] := by simpa only [SocketInv, hs] using h
      simp [step, disconnectWebSocket, hs, liveAfterAll, liveAfter, hl, SocketInv]
  | socketOpened =>
    match hs : s.activeSocket with
    | some sid =>
      simpa [step, openEvent, sendMessage, hs, liveAfterAll, liveAfter, SocketInv] using h
    | none =>
      simpa [step, openEvent, sendMessage, hs, liveAfterAll, liveAfter, SocketInv] using h
  | socketClosed =>
    by_cases hc : s.connected <;>
      simpa [step, closeEvent, hc, liveAfterAll, liveAfter, SocketInv] using h
  | tick =>
    by_cases hk : s.keepAliveActive
    · match hs : s.activeSocket with
      | some sid =>
        simpa [step, keepAliveTick, sendMessage, hk, hs, liveAfterAll, liveAfter,
          SocketInv] using h
      | none =>
        simpa [step, keepAliveTick, sendMessage, hk, hs, liveAfterAll, liveAfter,
          SocketInv] using h
    · simpa [step, keepAliveTick, hk, liveAfterAll, liveAfter, SocketInv] using h

/-- The invariant holds along any stimulus sequence. -/
theorem runTrace_socketInv : ∀ (cmds : List Cmd) (s : ConnState) (live : List Nat),
    SocketInv s live → SocketInv (runTrace s live cmds).1 (runTrace s live cmds).2
  | [], s, live, h => by simpa [runTrace] using h
  | c :: cs, s, live, h => by
    simp only [runTrace]
    exact runTrace_socketInv cs _ _ (step_socketInv s live c h)

/-- C3: at most one channel is live at any time across every stimulus
sequence from the initial state; and whenever a socket handle already
exists, a successful connect first fully retires it — clearing the
heartbeat timer, closing the old socket and discarding the handle — before
creating and installing the new socket, as the exact effect order shows. -/
theorem C3_single_channel :
    (∀ cmds : List Cmd, ((runTrace initialConnState [] cmds).2).length ≤ 1) ∧
    (∀ (s : ConnState) (cfg : ServerConfig) (rid tok : String) (old : Nat),
      s.activeSocket = some old → cfg.roomId = some rid →
      connectWebSocket cfg (.ok tok) s =
        (.ok (),
          { activeSocket := some s.nextId, connected := true,
            keepAliveActive := false, nextId := s.nextId + 1 },
          [.log "WebSocket already connected, disconnecting",
            .log "Closing WebSocket connection", .clearTimer, .closeSocket old,
            .log "Connecting WebSocket", .createSocket s.nextId])) := by
  constructor
  · intro cmds
    have h := runTrace_socketInv cmds initialConnState []
      (by simp [SocketInv, initialConnState])
    rcases hr : (runTrace initialConnState [] cmds).1.activeSocket with _ | sid <;>
      simp only [SocketInv, hr] at h <;> simp [h]
  · intro s cfg rid tok old hs hrid
    simp [connectWebSocket, hrid, hs, disconnectWebSocket]

/-- C3 witness: a double connect keeps the ledger at one socket, and a
connect on a state holding socket 7 closes 7 before creating 8. -/
theorem C3_witness :
    ((runTrace initialConnState []
        [Cmd.connect { baseUrl := "u", roomId := some "r" } (.ok "t"),
          Cmd.connect { baseUrl := "u", roomId := some "r" } (.ok "t")]).2).length ≤ 1 ∧
    connectWebSocket { baseUrl := "u", roomId := some "r" } (.ok "t")
        { activeSocket := some 7, connected := true, keepAliveActive := true, nextId := 8 } =
      (.ok (),
        { activeSocket := some 8, connected := true, keepAliveActive := false,
          nextId := 9 },
        [.log "WebSocket already connected, disconnecting",
          .log "Closing WebSocket connection", .clearTimer, .closeSocket 7,
          .log "Connecting WebSocket", .createSocket 8]) := by
  exact ⟨C3_single_channel.1
      [Cmd.connect { baseUrl := "u", roomId := some "r" } (.ok "t"),
        Cmd.connect { baseUrl := "u", roomId := some "r" } (.ok "t")],
    C3_single_channel.2
      { activeSocket := some 7, connected := true, keepAliveActive := true, nextId := 8 }
      { baseUrl := "u", roomId := some "r" } "r" "t" 7 rfl rfl⟩


theorem hexVal_hexDigitChar : ∀ n, n < 16 → hexVal (hexDigitChar n) = some n := by decide

theorem charOfNat_toNat_small (c : Char) (h : c.toNat < 32) : Char.ofNat c.toNat = c := by
  have h32 : ∀ n, n < 32 → (Char.ofNat n).toNat = n := by decide
  exact Char.ext (UInt32.toNat.inj (h32 c.toNat h))

theorem readChunk_quote (tail : List Char) : readChunk ('"' :: tail) = some (none, tail) := by
  simp [readChunk]

theorem readChunk_escapeChar (c : Char) (tail : List Char) :
    readChunk (escapeChar c ++ tail) = some (some c, tail) := by
  by_cases h1 : c = '"'
  · subst h1; simp [escapeChar, readChunk, readEscape, unescapeChar]
  · by_cases h2 : c = '\\'
    · subst h2; simp [escapeChar, readChunk, readEscape, unescapeChar]
    · by_cases h3 : c = Char.ofNat 8
      · subst h3
        have he : escapeChar (Char.ofNat 8) = ['\\', 'b'] := by decide
        rw [he]; simp [readChunk, readEscape, unescapeChar]
      · by_cases h4 : c = '\t'
        · subst h4; simp [escapeChar, readChunk, readEscape, unescapeChar]
        · by_cases h5 : c = '\n'
          · subst h5; simp [escapeChar, readChunk, readEscape, unescapeChar]
          · by_cases h6 : c = Char.ofNat 12
            · subst h6
              have he : escapeChar (Char.ofNat 12) = ['\\', 'f'] := by decide
              rw [he]; simp [readChunk, readEscape, unescapeChar]
            · by_cases h7 : c = '\r'
              · subst h7; simp [escapeChar, readChunk, readEscape, unescapeChar]
              · by_cases h8 : c.toNat < 32
                · have he : escapeChar c = ['\\', 'u', '0', '0',
                      hexDigitChar (c.toNat / 16), hexDigitChar (c.toNat % 16)] := by
                    simp [escapeChar, h1, h2, h3, h4, h5, h6, h7, h8]
                  have hd1 : hexVal (hexDigitChar (c.toNat / 16)) = some (c.toNat / 16) :=
                    hexVal_hexDigitChar _ (by omega)
                  have hd2 : hexVal (hexDigitChar (c.toNat % 16)) = some (c.toNat % 16) :=
                    hexVal_hexDigitChar _ (by omega)
                  have h0 : hexVal '0' = some 0 := by decide
                  rw [he]
                  simp [readChunk, readEscape, readUnicode, hd1, hd2, h0]
                  rw [show 16 * (c.toNat / 16) + c.toNat % 16 = c.toNat by omega]
                  exact charOfNat_toNat_small c h8
                · have he : escapeChar c = [c] := by
                    simp [escapeChar, h1, h2, h3, h4, h5, h6, h7, h8]
                  rw [he]; simp [readChunk, h1, h2]

theorem string_mk_data (s : String) : String.mk s.data = s := by cases s; rfl

theorem escapeChar_length_pos (c : Char) : 1 <= (escapeChar c).length := by
  unfold escapeChar
  repeat' split
  all_goals simp

theorem escapeString_length (s : List Char) : s.length <= (escapeString s).length := by
  induction s with
  | nil => simp [escapeString]
  | cons c s ih =>
    have := escapeChar_length_pos c
    simp [escapeString]
    omega

theorem parseStringBody_escapeString : forall (s rest : List Char) (fuel : Nat),
    s.length + 1 <= fuel ->
    parseStringBody fuel (escapeString s ++ '"' :: rest) = some (s, rest) := by
  intro s
  induction s with
  | nil =>
    intro rest fuel hf
    match fuel, hf with
    | f + 1, _ => simp [escapeString, parseStringBody, readChunk_quote]
  | cons c s ih =>
    intro rest fuel hf
    match fuel, hf with
    | f + 1, hf =>
      have hsplit : escapeString (c :: s) ++ '"' :: rest =
          escapeChar c ++ (escapeString s ++ '"' :: rest) := by
        simp [escapeString]
      rw [hsplit]
      have hrec := ih rest f (by simp at hf; omega)
      simp [parseStringBody, readChunk_escapeChar, hrec]

theorem printMembers_cons_head (k : String) (v : Json) (fs : Members) :
    exists X, printMembers (.cons k v fs) = '"' :: X := by
  cases fs <;> simp [printMembers, quoteString]

theorem parse_print (fuel : Nat) :
    (forall (v : Json) (rest : List Char), sizeJson v <= fuel ->
      parseJsonVal fuel (printJson v ++ rest) = some (v, rest)) /\
    (forall (fs : Members) (rest : List Char), fs ≠ .nil -> sizeMembers fs <= fuel ->
      parseMembers fuel (printMembers fs ++ rbrace :: rest) = some (fs, rest)) := by
  induction fuel with
  | zero =>
    constructor
    · intro v rest h
      cases v <;> simp [sizeJson] at h
    · intro fs rest hne h
      cases fs with
      | nil => exact absurd rfl hne
      | cons k v r => simp [sizeMembers] at h
  | succ fuel ih =>
    obtain ⟨ihv, ihm⟩ := ih
    constructor
    · intro v rest h
      cases v with
      | str s =>
        have hin : printJson (.str s) ++ rest = '"' :: (escapeString s.data ++ '"' :: rest) := by
          simp [printJson, quoteString]
        rw [hin]
        simp only [parseJsonVal, if_true]
        rw [parseStringBody_escapeString s.data rest]
        have h1 := escapeString_length s.data
        simp only [List.length_append, List.length_cons]
        omega
      | obj fs =>
        cases fs with
        | nil =>
          have hin : printJson (.obj .nil) ++ rest = lbrace :: rbrace :: rest := by
            simp [printJson, printMembers]
          rw [hin]
          simp [parseJsonVal, show lbrace ≠ '"' by decide]
        | cons k v fs2 =>
          obtain ⟨X, hX⟩ := printMembers_cons_head k v fs2
          have hin : printJson (.obj (.cons k v fs2)) ++ rest =
              lbrace :: ('"' :: (X ++ rbrace :: rest)) := by
            simp [printJson, hX]
          rw [hin]
          have hm := ihm (.cons k v fs2) rest (by simp) (by simp [sizeJson] at h; omega)
          rw [hX] at hm
          simp only [List.cons_append] at hm
          simp [parseJsonVal, show lbrace ≠ '"' by decide,
            show ('"' : Char) ≠ rbrace by decide, hm]
    · intro fs rest hne h
      cases fs with
      | nil => exact absurd rfl hne
      | cons k v fs2 =>
        cases fs2 with
        | nil =>
          have hin : printMembers (.cons k v .nil) ++ rbrace :: rest =
              '"' :: (escapeString k.data ++ '"' ::
                (':' :: (printJson v ++ rbrace :: rest))) := by
            simp [printMembers, quoteString]
          rw [hin]
          simp only [parseMembers, if_true]
          rw [parseStringBody_escapeString k.data (':' :: (printJson v ++ rbrace :: rest))]
          · have hv := ihv v (rbrace :: rest) (by simp [sizeMembers] at h; omega)
            simp [hv, string_mk_data, show rbrace ≠ ',' by decide]
          · have h1 := escapeString_length k.data
            have h2 : k.length = k.data.length := rfl
            simp only [List.length_append, List.length_cons]
            omega
        | cons k2 v2 fs3 =>
          have hin : printMembers (.cons k v (.cons k2 v2 fs3)) ++ rbrace :: rest =
              '"' :: (escapeString k.data ++ '"' ::
                (':' :: (printJson v ++ ',' ::
                  (printMembers (.cons k2 v2 fs3) ++ rbrace :: rest)))) := by
            simp [printMembers, quoteString]
          rw [hin]
          simp only [parseMembers, if_true]
          rw [parseStringBody_escapeString k.data
            (':' :: (printJson v ++ ',' :: (printMembers (.cons k2 v2 fs3) ++ rbrace :: rest)))]
          · have hv := ihv v (',' :: (printMembers (.cons k2 v2 fs3) ++ rbrace :: rest))
              (by simp [sizeMembers] at h; omega)
            have hm := ihm (.cons k2 v2 fs3) rest (by simp)
              (by simp only [sizeMembers] at h ⊢; omega)
            simp [hv, hm, string_mk_data]
          · have h1 := escapeString_length k.data
            have h2 : k.length = k.data.length := rfl
            simp only [List.length_append, List.length_cons]
            omega

theorem size_le_print (n : Nat) :
    (forall v, sizeJson v <= n -> sizeJson v <= (printJson v).length) /\
    (forall fs, sizeMembers fs <= n -> sizeMembers fs <= (printMembers fs).length + 1) := by
  induction n with
  | zero =>
    constructor
    · intro v h
      cases v <;> simp [sizeJson] at h
    · intro fs h
      cases fs with
      | nil => simp [sizeMembers]
      | cons k v r => simp [sizeMembers] at h
  | succ n ih =>
    obtain ⟨ihv, ihm⟩ := ih
    constructor
    · intro v h
      cases v with
      | str s => simp [sizeJson, printJson, quoteString]
      | obj fs =>
        have hfs := ihm fs (by simp only [sizeJson] at h; omega)
        simp only [sizeJson, printJson, List.length_cons, List.length_append] at hfs ⊢
        omega
    · intro fs h
      cases fs with
      | nil => simp [sizeMembers]
      | cons k v fs2 =>
        have hv := ihv v (by simp only [sizeMembers] at h; omega)
        cases fs2 with
        | nil =>
          simp only [sizeMembers, printMembers, List.length_append, List.length_cons] at hv ⊢
          omega
        | cons k2 v2 fs3 =>
          have hm := ihm (.cons k2 v2 fs3) (by simp only [sizeMembers] at h ⊢; omega)
          simp only [sizeMembers, printMembers, List.length_append, List.length_cons] at hv hm ⊢
          omega

theorem sizeJson_le_printJson_length (v : Json) : sizeJson v <= (printJson v).length :=
  (size_le_print (sizeJson v)).1 v Nat.le.refl

theorem C8_sync_roundtrip (r : Json) (_hv : isValidSyncRecord r = true) :
    decodeMsg (encodeMsg "sync" (some r)) = some { type := "sync", data := some r } := by
  have henv := (parse_print
      ((printJson (Json.obj (.cons "type" (.str "sync") (.cons "data" r .nil)))).length + 1)).1
    (Json.obj (.cons "type" (.str "sync") (.cons "data" r .nil))) []
    (by
      have := sizeJson_le_printJson_length
        (Json.obj (.cons "type" (.str "sync") (.cons "data" r .nil)))
      omega)
  rw [List.append_nil] at henv
  unfold decodeMsg encodeMsg
  rw [show (String.mk (printJson (Json.obj (.cons "type" (.str "sync") (.cons "data" r .nil))))).data
      = printJson (Json.obj (.cons "type" (.str "sync") (.cons "data" r .nil))) from rfl]
  rw [henv]
  simp [lookupField, show ("data" : String) ≠ "type" by decide]

theorem C8_witness :
    decodeMsg (encodeMsg "sync" (some (.obj (.cons "repo" (.str "app")
        (.cons "remote" (.str "origin") (.cons "branch" (.str "feature-x") .nil)))))) =
      some { type := "sync",
             data := some (.obj (.cons "repo" (.str "app")
               (.cons "remote" (.str "origin") (.cons "branch" (.str "feature-x") .nil)))) } :=
  C8_sync_roundtrip
    (.obj (.cons "repo" (.str "app")
      (.cons "remote" (.str "origin") (.cons "branch" (.str "feature-x") .nil))))
    (by decide)

end MultiBuild
